import Mathlib

/-!
Shallow embedding of the AMQP messenger core of
`iothub_client/src/iothubtransport_amqp_messenger.c` and of the send-status
facade of `iothub_client/src/iothubtransport_amqp_twin_messenger.c`.

External collaborators (the uAMQP links / message sender / message receiver,
the send queue implemented in `message_queue.c`, the clock and the retry
control helper `is_timeout_reached`) are not part of the given sources; each
fallible external call is represented by an explicit parameter recording its
outcome, and `time_t` is `Option Nat` with `none` standing for
`INDEFINITE_TIME` (`(time_t)(-1)`).
-/

/-- Result code `RESULT_OK` (0). -/
def RESULT_OK : Nat := 0

/-- Result code `__FAILURE__`: a fixed non-zero value (the concrete number is
irrelevant; the source only distinguishes zero from non-zero). -/
def MU_FAILURE : Nat := 1

/-- Constant `DEFAULT_MAX_SEND_ERROR_COUNT` (line 30). -/
def DEFAULT_MAX_SEND_ERROR_COUNT : Nat := 10

/-- Constant `MAX_MESSAGE_SENDER_STATE_CHANGE_TIMEOUT_SECS` (line 31). -/
def MAX_MESSAGE_SENDER_STATE_CHANGE_TIMEOUT_SECS : Nat := 300

/-- Constant `MAX_MESSAGE_RECEIVER_STATE_CHANGE_TIMEOUT_SECS` (line 32). -/
def MAX_MESSAGE_RECEIVER_STATE_CHANGE_TIMEOUT_SECS : Nat := 300

/-- Constant `DEFAULT_EVENT_SEND_TIMEOUT_SECS` (line 29). -/
def DEFAULT_EVENT_SEND_TIMEOUT_SECS : Nat := 600

/-- Messenger states, from `AMQP_MESSENGER_STATE_STRINGS` in the header
(`starting`, `started`, `stopping`, `stopped`, `error`). -/
inductive AMQP_MESSENGER_STATE where
  | starting
  | started
  | stopping
  | stopped
  | error
deriving DecidableEq, Repr

/-- The uAMQP message sender states (IDLE, OPENING, OPEN, CLOSING, ERROR);
`opened` stands for `MESSAGE_SENDER_STATE_OPEN`. -/
inductive MESSAGE_SENDER_STATE where
  | idle
  | opening
  | opened
  | closing
  | error
deriving DecidableEq, Repr

/-- The uAMQP message receiver states; `opened` stands for
`MESSAGE_RECEIVER_STATE_OPEN`. -/
inductive MESSAGE_RECEIVER_STATE where
  | idle
  | opening
  | opened
  | closing
  | error
deriving DecidableEq, Repr

/-- Completion results delivered by the send queue
(`MESSAGE_QUEUE_SUCCESS`, `MESSAGE_QUEUE_ERROR`, `MESSAGE_QUEUE_TIMEOUT`,
`MESSAGE_QUEUE_CANCELLED`). -/
inductive MESSAGE_QUEUE_RESULT where
  | success
  | error
  | timeout
  | cancelled
deriving DecidableEq, Repr

/-- User-facing send results, from `AMQP_MESSENGER_SEND_RESULT_STRINGS`. -/
inductive AMQP_MESSENGER_SEND_RESULT where
  | ok
  | error_cannot_parse
  | error_fail_sending
  | error_timeout
  | messenger_destroyed
deriving DecidableEq, Repr

/-- Send status, from `AMQP_MESSENGER_SEND_STATUS_STRINGS` (IDLE, BUSY). -/
inductive AMQP_MESSENGER_SEND_STATUS where
  | idle
  | busy
deriving DecidableEq, Repr

/-- Twin-layer send status (TWIN_MESSENGER_SEND_STATUS_IDLE / _BUSY). -/
inductive TWIN_MESSENGER_SEND_STATUS where
  | idle
  | busy
deriving DecidableEq, Repr

/-- The fields of `AMQP_MESSENGER_INSTANCE` (lines 37-72) that the verified
claims depend on.  Handle-typed fields (`session_handle`, `sender_link`,
`message_sender`, `receiver_link`, `message_receiver`,
`on_message_received_callback`) are abstracted to their null-ness, and the
`time_t` fields to `Option Nat` (`none` = `INDEFINITE_TIME`). -/
structure AMQP_MESSENGER_INSTANCE where
  state : AMQP_MESSENGER_STATE
  receive_messages : Bool
  on_message_received_callback : Bool
  session_handle : Bool
  sender_link : Bool
  message_sender : Bool
  message_sender_current_state : MESSAGE_SENDER_STATE
  message_sender_previous_state : MESSAGE_SENDER_STATE
  receiver_link : Bool
  message_receiver : Bool
  message_receiver_current_state : MESSAGE_RECEIVER_STATE
  message_receiver_previous_state : MESSAGE_RECEIVER_STATE
  send_error_count : Nat
  max_send_error_count : Nat
  last_message_sender_state_change_time : Option Nat
  last_message_receiver_state_change_time : Option Nat
deriving DecidableEq, Repr

/-- The messenger produced by a successful `amqp_messenger_create`
(lines 1428-1438): zero-initialized, state `STOPPED`, both link state shadows
`IDLE`, change times `INDEFINITE_TIME`, and
`max_send_error_count = DEFAULT_MAX_SEND_ERROR_COUNT`. -/
def amqp_messenger_create_instance : AMQP_MESSENGER_INSTANCE where
  state := .stopped
  receive_messages := false
  on_message_received_callback := false
  session_handle := false
  sender_link := false
  message_sender := false
  message_sender_current_state := .idle
  message_sender_previous_state := .idle
  receiver_link := false
  message_receiver := false
  message_receiver_current_state := .idle
  message_receiver_previous_state := .idle
  send_error_count := 0
  max_send_error_count := DEFAULT_MAX_SEND_ERROR_COUNT
  last_message_sender_state_change_time := none
  last_message_receiver_state_change_time := none

/-- Embedding of `on_message_processing_completed_callback`
(lines 1001-1047): translates the queue completion result into the user
`AMQP_MESSENGER_SEND_RESULT` and increments `send_error_count` in the
catch-all branch.  Returns the user result together with the updated
messenger (the source mutates `msg_ctx->messenger` through the context
back-reference). -/
def on_message_processing_completed_callback
    (result : MESSAGE_QUEUE_RESULT) (m : AMQP_MESSENGER_INSTANCE) :
    AMQP_MESSENGER_SEND_RESULT × AMQP_MESSENGER_INSTANCE :=
  if result = .success then
    (.ok, m)
  else if result = .timeout then
    (.error_timeout, m)
  else if result = .cancelled ∧ m.state = .stopped then
    (.messenger_destroyed, m)
  else
    (.error_fail_sending, { m with send_error_count := m.send_error_count + 1 })

/-- Value with which a disposition is answered to the peer; embeds the
`AMQP_VALUE` produced by `messaging_delivery_accepted` /
`messaging_delivery_released` / `messaging_delivery_rejected`, with `nil`
standing for the C `NULL` (no disposition sent). -/
inductive UAMQP_DISPOSITION_VALUE where
  | nil
  | accepted
  | released
  | rejected (error_condition : String) (error_description : String)
deriving DecidableEq, Repr

/-- Numeric value of the C enum constant
`AMQP_MESSENGER_DISPOSITION_RESULT_NONE` (first in the enum list). -/
def AMQP_MESSENGER_DISPOSITION_RESULT_NONE : Nat := 0

/-- Numeric value of `AMQP_MESSENGER_DISPOSITION_RESULT_ACCEPTED`. -/
def AMQP_MESSENGER_DISPOSITION_RESULT_ACCEPTED : Nat := 1

/-- Numeric value of `AMQP_MESSENGER_DISPOSITION_RESULT_REJECTED`. -/
def AMQP_MESSENGER_DISPOSITION_RESULT_REJECTED : Nat := 2

/-- Numeric value of `AMQP_MESSENGER_DISPOSITION_RESULT_RELEASED`. -/
def AMQP_MESSENGER_DISPOSITION_RESULT_RELEASED : Nat := 3

/-- Embedding of `create_uamqp_disposition_result_from` (lines 577-604).
The argument is the application verdict as a C integer (the C enum is open,
so any `Nat` can arrive here); the if-chain mirrors the source order
NONE, ACCEPTED, RELEASED, REJECTED, catch-all. -/
def create_uamqp_disposition_result_from (disposition_result : Nat) :
    UAMQP_DISPOSITION_VALUE :=
  if disposition_result = AMQP_MESSENGER_DISPOSITION_RESULT_NONE then
    .nil
  else if disposition_result = AMQP_MESSENGER_DISPOSITION_RESULT_ACCEPTED then
    .accepted
  else if disposition_result = AMQP_MESSENGER_DISPOSITION_RESULT_RELEASED then
    .released
  else if disposition_result = AMQP_MESSENGER_DISPOSITION_RESULT_REJECTED then
    .rejected "Rejected by application" "Rejected by application"
  else
    .nil

/-- The `AMQP_MESSENGER_MESSAGE_DISPOSITION_INFO` structure from the header:
delivery id plus owned copy of the receiving link name. -/
structure AMQP_MESSENGER_MESSAGE_DISPOSITION_INFO where
  message_id : Nat
  source : String
deriving DecidableEq, Repr

/-- Embedding of `create_message_disposition_info` (lines 526-569).  The
outcomes of the external calls are parameters: `malloc_ok` for the container
allocation, `received_message_id` for `messagereceiver_get_received_message_id`
(`none` = the call failed), `link_name` for `messagereceiver_get_link_name`,
and `strcpy_ok` for `mallocAndStrcpy_s`.  Any failure yields `none` (the
source frees the partial container and returns NULL). -/
def create_message_disposition_info
    (malloc_ok : Bool) (received_message_id : Option Nat)
    (link_name : Option String) (strcpy_ok : Bool) :
    Option AMQP_MESSENGER_MESSAGE_DISPOSITION_INFO :=
  if malloc_ok = false then
    none
  else
    match received_message_id with
    | none => none
    | some message_id =>
      match link_name with
      | none => none
      | some name =>
        if strcpy_ok = false then
          none
        else
          some { message_id := message_id, source := name }

/-- Embedding of `on_message_received_internal_callback` (lines 606-631).
Returns the disposition value handed to the underlying receiver together
with a flag recording whether `instance->on_message_received_callback` was
invoked; `application_verdict` is the verdict the application callback would
return (as a C integer). -/
def on_message_received_internal_callback
    (malloc_ok : Bool) (received_message_id : Option Nat)
    (link_name : Option String) (strcpy_ok : Bool)
    (application_verdict : Nat) : UAMQP_DISPOSITION_VALUE × Bool :=
  match create_message_disposition_info malloc_ok received_message_id link_name strcpy_ok with
  | none => (.released, false)
  | some _ => (create_uamqp_disposition_result_from application_verdict, true)

/-- The option name `MESSENGER_OPTION_EVENT_SEND_TIMEOUT_SECS` from the
header. -/
def MESSENGER_OPTION_EVENT_SEND_TIMEOUT_SECS : String :=
  "amqp_event_send_timeout_secs"

/-- Embedding of `amqp_messenger_set_option` (lines 1518-1556) for non-null
handle, name and value.  `queue_setter_returned` is the value returned by the
external call `message_queue_set_max_message_enqueued_time_secs` (defined in
`message_queue.c`, not among the sources; per the spec its success sentinel
is zero).  The source tests `== 0` for the failure branch. -/
def amqp_messenger_set_option (name : String) (queue_setter_returned : Nat) : Nat :=
  if name = MESSENGER_OPTION_EVENT_SEND_TIMEOUT_SECS then
    if queue_setter_returned = 0 then
      MU_FAILURE
    else
      RESULT_OK
  else
    MU_FAILURE

/-- Embedding of `amqp_messenger_get_send_status` (lines 1104-1132) for
non-null arguments.  `queue_is_empty` is the outcome of the external call
`message_queue_is_empty` (`Except.error` = the call failed; per the spec the
queue reports empty iff both pending and in-flight are empty). -/
def amqp_messenger_get_send_status (queue_is_empty : Except Unit Bool) :
    Except Unit AMQP_MESSENGER_SEND_STATUS :=
  match queue_is_empty with
  | .error e => .error e
  | .ok is_empty => .ok (if is_empty then .idle else .busy)

/-- Numeric value of the C enum constant `AMQP_MESSENGER_SEND_STATUS_BUSY`
(the enum lists IDLE first, so BUSY = 1). -/
def AMQP_MESSENGER_SEND_STATUS_BUSY_VALUE : Nat := 1

/-- Embedding of `twin_messenger_get_send_status`
(`iothubtransport_amqp_twin_messenger.c`, lines 590-617) for non-null
arguments.  The source computes
`*send_status = (AMQP_MESSENGER_SEND_STATUS_BUSY ? TWIN_..._BUSY : TWIN_..._IDLE)`,
i.e. the ternary condition is the enum constant itself rather than the
fetched `amqp_send_status`, whose value is dropped. -/
def twin_messenger_get_send_status (queue_is_empty : Except Unit Bool) :
    Except Unit TWIN_MESSENGER_SEND_STATUS :=
  match amqp_messenger_get_send_status queue_is_empty with
  | .error e => .error e
  | .ok _ =>
    .ok (if AMQP_MESSENGER_SEND_STATUS_BUSY_VALUE ≠ 0 then .busy else .idle)

/-- Modelled from the spec: `is_timeout_reached` (declared in
`iothub_client_retry_control.h`; its implementation is not among the source
files).  Fails when the start time is `INDEFINITE_TIME`; otherwise reports
whether the deadline has expired.  The spec fixes the boundary: a link
"fails to reach Open within 300 s" — at 299 s the timeout has not been
reached and past 300 s it has — so expiry is `elapsed > timeout_secs`. -/
def is_timeout_reached (start_time : Option Nat) (timeout_secs : Nat)
    (current_time : Nat) : Except Unit Bool :=
  match start_time with
  | none => .error ()
  | some t => .ok (decide (current_time - t > timeout_secs))

/-- Embedding of `update_messenger_state` (lines 227-239): stores the new
state (the state-change observer is external and not modelled; it receives
the pair only when the value actually changes). -/
def update_messenger_state (m : AMQP_MESSENGER_INSTANCE)
    (new_state : AMQP_MESSENGER_STATE) : AMQP_MESSENGER_INSTANCE :=
  { m with state := new_state }

/-- Embedding of `destroy_message_sender` (lines 319-337): destroys the
message sender (resetting the shadow states to IDLE and the change time to
`INDEFINITE_TIME`) and the sender link. -/
def destroy_message_sender (m : AMQP_MESSENGER_INSTANCE) : AMQP_MESSENGER_INSTANCE :=
  let m1 :=
    if m.message_sender then
      { m with message_sender := false,
               message_sender_current_state := .idle,
               message_sender_previous_state := .idle,
               last_message_sender_state_change_time := none }
    else m
  if m1.sender_link then { m1 with sender_link := false } else m1

/-- Embedding of `destroy_message_receiver` (lines 475-506): closes and
destroys the message receiver (resetting its shadow state) and destroys the
receiver link. -/
def destroy_message_receiver (m : AMQP_MESSENGER_INSTANCE) : AMQP_MESSENGER_INSTANCE :=
  let m1 :=
    if m.message_receiver then
      { m with message_receiver := false,
               message_receiver_current_state := .idle,
               message_receiver_previous_state := .idle,
               last_message_receiver_state_change_time := none }
    else m
  if m1.receiver_link then { m1 with receiver_link := false } else m1

/-- Embedding of `create_message_sender` (lines 354-473), collapsed over the
outcomes of its external steps: `creation_ok` records whether every external
call up to `messagesender_open` succeeded.  On success both `sender_link`
and `message_sender` are set; every failure path in the source either fails
before creating the link or tears the partial link state down again, so on
failure the messenger is returned unchanged. -/
def create_message_sender (m : AMQP_MESSENGER_INSTANCE) (creation_ok : Bool) :
    AMQP_MESSENGER_INSTANCE × Bool :=
  if creation_ok then
    ({ m with sender_link := true, message_sender := true }, true)
  else
    (m, false)

/-- Embedding of `create_message_receiver` (lines 633-760), collapsed over
the outcomes of its external steps exactly like `create_message_sender`. -/
def create_message_receiver (m : AMQP_MESSENGER_INSTANCE) (creation_ok : Bool) :
    AMQP_MESSENGER_INSTANCE × Bool :=
  if creation_ok then
    ({ m with receiver_link := true, message_receiver := true }, true)
  else
    (m, false)

/-- Modelled from the spec: `message_queue_do_work` (`message_queue.c`, not
among the sources) presents pending items and fires completions; the queue
only makes progress inside this call.  The completions delivered during one
tick for items of this messenger are the list argument; each one invokes
`on_message_processing_completed_callback` (source, lines 1001-1047). -/
def message_queue_do_work :
    AMQP_MESSENGER_INSTANCE → List MESSAGE_QUEUE_RESULT → AMQP_MESSENGER_INSTANCE
  | m, [] => m
  | m, r :: rest =>
    message_queue_do_work (on_message_processing_completed_callback r m).2 rest

/-- Embedding of `process_state_changes` (lines 1227-1297). -/
def process_state_changes (m : AMQP_MESSENGER_INSTANCE) (now : Nat) :
    AMQP_MESSENGER_INSTANCE :=
  match m.state with
  | .started =>
    if m.message_sender_current_state ≠ .opened then
      update_messenger_state m .error
    else if m.message_receiver ∧ m.message_receiver_current_state ≠ .opened then
      match m.message_receiver_current_state with
      | .opening =>
        match is_timeout_reached m.last_message_receiver_state_change_time
            MAX_MESSAGE_RECEIVER_STATE_CHANGE_TIMEOUT_SECS now with
        | .error _ => update_messenger_state m .error
        | .ok true => update_messenger_state m .error
        | .ok false => m
      | .error => update_messenger_state m .error
      | .idle => update_messenger_state m .error
      | _ => m
    else
      m
  | .starting =>
    match m.message_sender_current_state with
    | .opened => update_messenger_state m .started
    | .opening =>
      match is_timeout_reached m.last_message_sender_state_change_time
          MAX_MESSAGE_SENDER_STATE_CHANGE_TIMEOUT_SECS now with
      | .error _ => update_messenger_state m .error
      | .ok true => update_messenger_state m .error
      | .ok false => m
    | .error => update_messenger_state m .error
    | .closing => update_messenger_state m .error
    | .idle => if m.message_sender then update_messenger_state m .error else m
  | _ => m

/-- Environment of one `amqp_messenger_do_work` tick: the current time and
the outcomes of the external calls the tick may make. -/
structure DO_WORK_ENV where
  now : Nat
  create_sender_ok : Bool
  create_receiver_ok : Bool
  queue_completions : List MESSAGE_QUEUE_RESULT
deriving DecidableEq, Repr

/-- The receiver-management step of the STARTED branch of
`amqp_messenger_do_work` (lines 1326-1337): create the receiver when
subscribed and absent (a creation failure is only logged), destroy it when
unsubscribed and present. -/
def do_work_manage_receiver (m : AMQP_MESSENGER_INSTANCE) (create_ok : Bool) :
    AMQP_MESSENGER_INSTANCE :=
  if m.receive_messages = true ∧ m.message_receiver = false then
    (create_message_receiver m create_ok).1
  else if m.receive_messages = false ∧ m.message_receiver = true then
    destroy_message_receiver m
  else
    m

/-- Embedding of `amqp_messenger_do_work` (lines 1299-1349) for a non-null
handle: process observed state changes, then create the sender while
STARTING (promoting to ERROR on failure), or — while STARTED — manage the
receiver, pump the send queue and promote to ERROR once
`send_error_count >= max_send_error_count`. -/
def amqp_messenger_do_work (m : AMQP_MESSENGER_INSTANCE) (env : DO_WORK_ENV) :
    AMQP_MESSENGER_INSTANCE :=
  let m1 := process_state_changes m env.now
  if m1.state = .starting then
    if m1.message_sender = true then
      m1
    else
      let created := create_message_sender m1 env.create_sender_ok
      if created.2 = true then
        created.1
      else
        update_messenger_state created.1 .error
  else if m1.state = .started then
    let m2 := do_work_manage_receiver m1 env.create_receiver_ok
    let m3 := message_queue_do_work m2 env.queue_completions
    if m3.send_error_count ≥ m3.max_send_error_count then
      update_messenger_state m3 .error
    else
      m3
  else
    m1

/-- Embedding of `amqp_messenger_start` (lines 1134-1174) for a non-null
handle; `session_nonnull` records whether the session argument is non-null.
Returns the updated messenger and the result code. -/
def amqp_messenger_start (m : AMQP_MESSENGER_INSTANCE) (session_nonnull : Bool) :
    AMQP_MESSENGER_INSTANCE × Nat :=
  if session_nonnull = false then
    (m, MU_FAILURE)
  else if m.state ≠ .stopped then
    (m, MU_FAILURE)
  else
    (update_messenger_state { m with session_handle := true } .starting, RESULT_OK)

/-- Embedding of `amqp_messenger_stop` (lines 1176-1223) for a non-null
handle.  `queue_move_ok` is the outcome of the external call
`message_queue_move_all_back_to_pending` (`message_queue.c`, not among the
sources).  Returns the updated messenger, the result code, and a flag
recording whether the queue move was invoked. -/
def amqp_messenger_stop (m : AMQP_MESSENGER_INSTANCE) (queue_move_ok : Bool) :
    AMQP_MESSENGER_INSTANCE × Nat × Bool :=
  if m.state = .stopped then
    (m, MU_FAILURE, false)
  else
    let m1 := update_messenger_state m .stopping
    let m2 := destroy_message_sender m1
    let m3 := destroy_message_receiver m2
    if queue_move_ok = false then
      (update_messenger_state m3 .error, MU_FAILURE, true)
    else
      (update_messenger_state m3 .stopped, RESULT_OK, true)

/-- Embedding of `amqp_messenger_subscribe_for_messages` (lines 855-898) for
a non-null handle; `callback_nonnull` records whether the callback argument
is non-null. -/
def amqp_messenger_subscribe_for_messages (m : AMQP_MESSENGER_INSTANCE)
    (callback_nonnull : Bool) : AMQP_MESSENGER_INSTANCE × Nat :=
  if m.receive_messages = true then
    (m, MU_FAILURE)
  else if callback_nonnull = false then
    (m, MU_FAILURE)
  else
    ({ m with on_message_received_callback := true, receive_messages := true }, RESULT_OK)

/-- Embedding of `amqp_messenger_unsubscribe_for_messages` (lines 900-937)
for a non-null handle. -/
def amqp_messenger_unsubscribe_for_messages (m : AMQP_MESSENGER_INSTANCE) :
    AMQP_MESSENGER_INSTANCE × Nat :=
  if m.receive_messages = false then
    (m, MU_FAILURE)
  else
    ({ m with receive_messages := false, on_message_received_callback := false }, RESULT_OK)

/-- One public API call on a messenger handle, carrying the outcomes of the
external collaborators it consults. -/
inductive MESSENGER_API_CALL where
  | start_call (session_nonnull : Bool)
  | stop_call (queue_move_ok : Bool)
  | do_work_call (env : DO_WORK_ENV)
  | subscribe_call (callback_nonnull : Bool)
  | unsubscribe_call
deriving DecidableEq, Repr

/-- Apply one public API call to the messenger state. -/
def apply_api_call (m : AMQP_MESSENGER_INSTANCE) :
    MESSENGER_API_CALL → AMQP_MESSENGER_INSTANCE
  | .start_call session_nonnull => (amqp_messenger_start m session_nonnull).1
  | .stop_call queue_move_ok => (amqp_messenger_stop m queue_move_ok).1
  | .do_work_call env => amqp_messenger_do_work m env
  | .subscribe_call callback_nonnull =>
    (amqp_messenger_subscribe_for_messages m callback_nonnull).1
  | .unsubscribe_call => (amqp_messenger_unsubscribe_for_messages m).1

/-- The messenger state reached from a fresh `amqp_messenger_create` after a
sequence of public API calls. -/
def run_api_calls (calls : List MESSENGER_API_CALL) : AMQP_MESSENGER_INSTANCE :=
  calls.foldl apply_api_call amqp_messenger_create_instance

/-- Helper: the completion handler only ever touches `send_error_count`. -/
theorem on_message_processing_completed_callback_shape
    (r : MESSAGE_QUEUE_RESULT) (m : AMQP_MESSENGER_INSTANCE) :
    ∃ k, (on_message_processing_completed_callback r m).2 =
      { m with send_error_count := k } := by
  unfold on_message_processing_completed_callback
  by_cases h1 : r = .success
  · exact ⟨m.send_error_count, by simp [h1]⟩
  · by_cases h2 : r = .timeout
    · exact ⟨m.send_error_count, by simp [h1, h2]⟩
    · by_cases h3 : r = .cancelled ∧ m.state = .stopped
      · exact ⟨m.send_error_count, by rw [if_neg h1, if_neg h2, if_pos h3]⟩
      · exact ⟨m.send_error_count + 1, by simp [h1, h2, h3]⟩

/-- Helper: pumping the queue only ever touches `send_error_count`. -/
theorem message_queue_do_work_shape (cs : List MESSAGE_QUEUE_RESULT) :
    ∀ m : AMQP_MESSENGER_INSTANCE,
      ∃ k, message_queue_do_work m cs = { m with send_error_count := k } := by
  induction cs with
  | nil => exact fun m => ⟨m.send_error_count, rfl⟩
  | cons r rest ih =>
    intro m
    obtain ⟨k1, h1⟩ := on_message_processing_completed_callback_shape r m
    obtain ⟨k2, h2⟩ := ih { m with send_error_count := k1 }
    refine ⟨k2, ?_⟩
    simp only [message_queue_do_work]
    rw [h1, h2]

/-- Number of completions in a batch that take the catch-all
(`ErrorFailSending`) branch of the handler when the messenger is not
stopped. -/
def queue_error_increments : List MESSAGE_QUEUE_RESULT → Nat
  | [] => 0
  | r :: rest => (if r = .success ∨ r = .timeout then 0 else 1) + queue_error_increments rest

/-- Helper: while the messenger is not stopped, pumping the queue adds
exactly one to `send_error_count` per catch-all completion. -/
theorem message_queue_do_work_count (cs : List MESSAGE_QUEUE_RESULT) :
    ∀ m : AMQP_MESSENGER_INSTANCE, m.state ≠ .stopped →
      (message_queue_do_work m cs).send_error_count =
        m.send_error_count + queue_error_increments cs := by
  induction cs with
  | nil => intro m _; simp [message_queue_do_work, queue_error_increments]
  | cons r rest ih =>
    intro m hm
    obtain ⟨k1, hsh⟩ := on_message_processing_completed_callback_shape r m
    have hstate : (on_message_processing_completed_callback r m).2.state = m.state := by
      rw [hsh]
    have hcount : (on_message_processing_completed_callback r m).2.send_error_count =
        m.send_error_count + (if r = .success ∨ r = .timeout then 0 else 1) := by
      unfold on_message_processing_completed_callback
      by_cases h1 : r = .success
      · simp [h1]
      · by_cases h2 : r = .timeout
        · simp [h1, h2]
        · have h3 : ¬(r = .cancelled ∧ m.state = .stopped) := by
            rintro ⟨-, habs⟩
            exact hm habs
          simp [h1, h2, h3]
    simp only [message_queue_do_work, queue_error_increments]
    rw [ih _ (by rw [hstate]; exact hm), hcount]
    omega

/-- Helper: `process_state_changes` only ever touches `state`. -/
theorem process_state_changes_shape (m : AMQP_MESSENGER_INSTANCE) (now : Nat) :
    ∃ s, process_state_changes m now = { m with state := s } := by
  unfold process_state_changes update_messenger_state
  cases hst : m.state
  all_goals simp only []
  all_goals repeat' split
  all_goals exact ⟨_, rfl⟩

/-- Helper: `process_state_changes` leaves the state alone or moves it to
`started` or `error`. -/
theorem process_state_changes_state_cases (m : AMQP_MESSENGER_INSTANCE) (now : Nat) :
    (process_state_changes m now).state = m.state ∨
    (process_state_changes m now).state = .started ∨
    (process_state_changes m now).state = .error := by
  unfold process_state_changes update_messenger_state
  cases hst : m.state
  all_goals simp only []
  all_goals repeat' split
  all_goals simp [hst]

/-- Helper: sender creation does not touch the messenger state. -/
theorem create_message_sender_state (m : AMQP_MESSENGER_INSTANCE) (ok : Bool) :
    ((create_message_sender m ok).1).state = m.state := by
  unfold create_message_sender
  split <;> rfl

/-- Helper: the receiver-management step touches neither `state` nor the
error counters. -/
theorem do_work_manage_receiver_preserves (m : AMQP_MESSENGER_INSTANCE) (ok : Bool) :
    (do_work_manage_receiver m ok).state = m.state ∧
    (do_work_manage_receiver m ok).send_error_count = m.send_error_count ∧
    (do_work_manage_receiver m ok).max_send_error_count = m.max_send_error_count := by
  unfold do_work_manage_receiver create_message_receiver destroy_message_receiver
  by_cases h1 : m.receive_messages <;> by_cases h2 : m.message_receiver <;>
    by_cases h3 : m.receiver_link <;> cases ok <;>
      simp [h1, h2, h3]

/-- Helper: after `destroy_message_sender` the sender link and message
sender are absent and the state is unchanged. -/
theorem destroy_message_sender_fields (m : AMQP_MESSENGER_INSTANCE) :
    (destroy_message_sender m).message_sender = false ∧
    (destroy_message_sender m).sender_link = false ∧
    (destroy_message_sender m).state = m.state ∧
    (destroy_message_sender m).message_receiver = m.message_receiver ∧
    (destroy_message_sender m).receiver_link = m.receiver_link := by
  unfold destroy_message_sender
  by_cases h1 : m.message_sender <;> by_cases h2 : m.sender_link <;> simp [h1, h2]

/-- Helper: after `destroy_message_receiver` the receiver link and message
receiver are absent and the state is unchanged. -/
theorem destroy_message_receiver_fields (m : AMQP_MESSENGER_INSTANCE) :
    (destroy_message_receiver m).message_receiver = false ∧
    (destroy_message_receiver m).receiver_link = false ∧
    (destroy_message_receiver m).state = m.state ∧
    (destroy_message_receiver m).message_sender = m.message_sender ∧
    (destroy_message_receiver m).sender_link = m.sender_link := by
  unfold destroy_message_receiver
  by_cases h1 : m.message_receiver <;> by_cases h2 : m.receiver_link <;> simp [h1, h2]

/-- Helper: a do_work tick on a stopped messenger is a no-op (the state
evaluation skips stopped messengers and neither active branch applies). -/
theorem amqp_messenger_do_work_of_stopped (m : AMQP_MESSENGER_INSTANCE)
    (env : DO_WORK_ENV) (h : m.state = .stopped) :
    amqp_messenger_do_work m env = m := by
  have hp : process_state_changes m env.now = m := by
    unfold process_state_changes
    rw [h]
  unfold amqp_messenger_do_work
  rw [hp]
  simp [h]

/-- Helper: a do_work tick never yields a stopped messenger from a
non-stopped one (only `stop` reaches the stopped state). -/
theorem amqp_messenger_do_work_state_ne_stopped (m : AMQP_MESSENGER_INSTANCE)
    (env : DO_WORK_ENV) (h : m.state ≠ .stopped) :
    (amqp_messenger_do_work m env).state ≠ .stopped := by
  obtain ⟨s, hs⟩ := process_state_changes_shape m env.now
  have hcase : s = m.state ∨ s = .started ∨ s = .error := by
    have hc := process_state_changes_state_cases m env.now
    rw [hs] at hc
    simpa using hc
  have hsne : s ≠ .stopped := by
    rcases hcase with h1 | h1 | h1 <;> subst h1 <;> simp_all
  unfold amqp_messenger_do_work
  rw [hs]
  dsimp only
  split
  · split
    · simpa using hsne
    · cases hok : env.create_sender_ok <;>
        simp [create_message_sender, hok, update_messenger_state] <;>
        exact hsne
  · split
    · obtain ⟨k, hk⟩ := message_queue_do_work_shape env.queue_completions
        (do_work_manage_receiver { m with state := s } env.create_receiver_ok)
      have hrs : (do_work_manage_receiver { m with state := s }
          env.create_receiver_ok).state = s := by
        simpa using (do_work_manage_receiver_preserves
          { m with state := s } env.create_receiver_ok).1
      rw [hk]
      split
      · simp [update_messenger_state]
      · simpa [hrs] using hsne
    · simpa using hsne

/-- Helper: the state evaluation of a started messenger either leaves it
untouched or demotes it to error. -/
theorem process_state_changes_of_started (m : AMQP_MESSENGER_INSTANCE) (now : Nat)
    (h : m.state = .started) :
    process_state_changes m now = m ∨
    process_state_changes m now = update_messenger_state m .error := by
  unfold process_state_changes
  rw [h]
  dsimp only
  repeat' split
  all_goals first
    | exact Or.inl rfl
    | exact Or.inr rfl

/-- Sample messenger: freshly created, then started with a session, with the
sender created and reported open (a steady Started state). -/
def sample_started_messenger : AMQP_MESSENGER_INSTANCE :=
  { amqp_messenger_create_instance with
      state := .started
      session_handle := true
      sender_link := true
      message_sender := true
      message_sender_current_state := .opened
      message_sender_previous_state := .opening
      last_message_sender_state_change_time := some 0 }

/-- Sample messenger: Started with nine send errors already recorded. -/
def sample_started_nine_errors : AMQP_MESSENGER_INSTANCE :=
  { sample_started_messenger with send_error_count := 9 }

/-- Sample messenger: Starting, with the sender created and still Opening
since time 0. -/
def sample_opening_messenger : AMQP_MESSENGER_INSTANCE :=
  { amqp_messenger_create_instance with
      state := .starting
      session_handle := true
      sender_link := true
      message_sender := true
      message_sender_current_state := .opening
      message_sender_previous_state := .idle
      last_message_sender_state_change_time := some 0 }

/-- Sample environment: tick at time `t`, all external creations succeed, no
queue completions fire. -/
def quiet_env_at (t : Nat) : DO_WORK_ENV :=
  { now := t
    create_sender_ok := true
    create_receiver_ok := true
    queue_completions := [] }

/-- Sample environment: tick at time 0 delivering a single Error completion
from the queue. -/
def env_one_error_completion : DO_WORK_ENV :=
  { quiet_env_at 0 with queue_completions := [.error] }

/-- C1: every queue completion delivered to
`on_message_processing_completed_callback` for an enqueued send maps Success
to OK, Timeout to ErrorTimeout, Cancelled-while-Stopped to
MessengerDestroyed, and every other case to ErrorFailSending with
`send_error_count` incremented by exactly one; no other case changes
`send_error_count` (the first three cases return the messenger unchanged). -/
theorem on_message_processing_completed_callback_result_mapping
    (r : MESSAGE_QUEUE_RESULT) (m : AMQP_MESSENGER_INSTANCE) :
    (r = .success →
      on_message_processing_completed_callback r m = (.ok, m)) ∧
    (r = .timeout →
      on_message_processing_completed_callback r m = (.error_timeout, m)) ∧
    (r = .cancelled → m.state = .stopped →
      on_message_processing_completed_callback r m = (.messenger_destroyed, m)) ∧
    (¬ r = .success → ¬ r = .timeout → ¬ (r = .cancelled ∧ m.state = .stopped) →
      on_message_processing_completed_callback r m =
        (.error_fail_sending,
          { m with send_error_count := m.send_error_count + 1 })) := by
  refine ⟨?_, ?_, ?_, ?_⟩
  · intro h1
    subst h1
    rfl
  · intro h1
    subst h1
    rfl
  · intro h1 h2
    subst h1
    unfold on_message_processing_completed_callback
    rw [if_neg (by simp), if_neg (by simp), if_pos ⟨rfl, h2⟩]
  · intro h1 h2 h3
    unfold on_message_processing_completed_callback
    rw [if_neg h1, if_neg h2, if_neg h3]

/-- Witness for C1: concrete evaluations of the four cases. -/
theorem on_message_processing_completed_callback_result_mapping_witness :
    on_message_processing_completed_callback .success sample_started_messenger =
      (.ok, sample_started_messenger) ∧
    on_message_processing_completed_callback .cancelled amqp_messenger_create_instance =
      (.messenger_destroyed, amqp_messenger_create_instance) ∧
    on_message_processing_completed_callback .error sample_started_messenger =
      (.error_fail_sending,
        { sample_started_messenger with send_error_count :=
            sample_started_messenger.send_error_count + 1 }) :=
  ⟨(on_message_processing_completed_callback_result_mapping .success
      sample_started_messenger).1 rfl,
   (on_message_processing_completed_callback_result_mapping .cancelled
      amqp_messenger_create_instance).2.2.1 rfl rfl,
   (on_message_processing_completed_callback_result_mapping .error
      sample_started_messenger).2.2.2 (by decide) (by decide) (by decide)⟩

/-- C5 (code bug): with the recognized option name
`amqp_event_send_timeout_secs`, `amqp_messenger_set_option` returns failure
exactly when the underlying queue setter returns zero — the setter's success
sentinel — inverting the documented intent (its own requirement comment says
"If no errors occur, amqp_messenger_set_option shall return 0"); unknown
names fail as specified. -/
theorem amqp_messenger_set_option_inverted_sentinel :
    amqp_messenger_set_option MESSENGER_OPTION_EVENT_SEND_TIMEOUT_SECS RESULT_OK ≠
      RESULT_OK ∧
    amqp_messenger_set_option MESSENGER_OPTION_EVENT_SEND_TIMEOUT_SECS MU_FAILURE =
      RESULT_OK ∧
    amqp_messenger_set_option "some_unsupported_option" RESULT_OK ≠ RESULT_OK := by
  refine ⟨by decide, rfl, by decide⟩

/-- C6 (code bug): the core messenger derives IDLE from an empty queue and
BUSY otherwise, but `twin_messenger_get_send_status` uses the enum constant
`AMQP_MESSENGER_SEND_STATUS_BUSY` itself as the ternary condition, so the
twin layer reports BUSY even when the queue is empty. -/
theorem twin_messenger_get_send_status_always_busy :
    amqp_messenger_get_send_status (Except.ok true) = Except.ok .idle ∧
    amqp_messenger_get_send_status (Except.ok false) = Except.ok .busy ∧
    twin_messenger_get_send_status (Except.ok true) = Except.ok .busy ∧
    twin_messenger_get_send_status (Except.ok false) = Except.ok .busy :=
  ⟨rfl, rfl, rfl, rfl⟩

/-- C7: the disposition token produced for the peer is nil for None,
accepted for Accepted, released for Released, a rejected outcome with
condition and description "Rejected by application" for Rejected, and nil
for any value outside the four defined verdicts. -/
theorem create_uamqp_disposition_result_from_mapping (d : Nat) :
    (d = AMQP_MESSENGER_DISPOSITION_RESULT_NONE →
      create_uamqp_disposition_result_from d = .nil) ∧
    (d = AMQP_MESSENGER_DISPOSITION_RESULT_ACCEPTED →
      create_uamqp_disposition_result_from d = .accepted) ∧
    (d = AMQP_MESSENGER_DISPOSITION_RESULT_RELEASED →
      create_uamqp_disposition_result_from d = .released) ∧
    (d = AMQP_MESSENGER_DISPOSITION_RESULT_REJECTED →
      create_uamqp_disposition_result_from d =
        .rejected "Rejected by application" "Rejected by application") ∧
    (d ≠ AMQP_MESSENGER_DISPOSITION_RESULT_NONE →
      d ≠ AMQP_MESSENGER_DISPOSITION_RESULT_ACCEPTED →
      d ≠ AMQP_MESSENGER_DISPOSITION_RESULT_REJECTED →
      d ≠ AMQP_MESSENGER_DISPOSITION_RESULT_RELEASED →
      create_uamqp_disposition_result_from d = .nil) := by
  refine ⟨?_, ?_, ?_, ?_, ?_⟩
  · intro h1
    subst h1
    rfl
  · intro h1
    subst h1
    rfl
  · intro h1
    subst h1
    rfl
  · intro h1
    subst h1
    rfl
  · intro h1 h2 h3 h4
    unfold create_uamqp_disposition_result_from
    rw [if_neg h1, if_neg h2, if_neg h4, if_neg h3]

/-- Witness for C7: the Rejected verdict and an out-of-range verdict. -/
theorem create_uamqp_disposition_result_from_mapping_witness :
    create_uamqp_disposition_result_from 2 =
      .rejected "Rejected by application" "Rejected by application" ∧
    create_uamqp_disposition_result_from 9 = .nil :=
  ⟨(create_uamqp_disposition_result_from_mapping 2).2.2.2.1 rfl,
   (create_uamqp_disposition_result_from_mapping 9).2.2.2.2
     (by decide) (by decide) (by decide) (by decide)⟩

/-- C10: whenever the disposition handle cannot be built (container
allocation failure, or the receiver failing to report the delivery id or the
link name, or the link-name copy failing), the internal receive callback
answers the released outcome to the peer and the application callback is not
invoked. -/
theorem on_message_received_internal_callback_failure_path
    (malloc_ok : Bool) (received_message_id : Option Nat)
    (link_name : Option String) (strcpy_ok : Bool) (application_verdict : Nat) :
    create_message_disposition_info malloc_ok received_message_id link_name
      strcpy_ok = none →
    on_message_received_internal_callback malloc_ok received_message_id link_name
      strcpy_ok application_verdict = (.released, false) := by
  intro h
  unfold on_message_received_internal_callback
  rw [h]

/-- Witness for C10: the receiver fails to report the delivery id. -/
theorem on_message_received_internal_callback_failure_path_witness :
    on_message_received_internal_callback true none (some "link-rcv-d1") true
      AMQP_MESSENGER_DISPOSITION_RESULT_ACCEPTED = (.released, false) :=
  on_message_received_internal_callback_failure_path true none (some "link-rcv-d1")
    true AMQP_MESSENGER_DISPOSITION_RESULT_ACCEPTED rfl

/-- Embedding of `amqp_messenger_send_async` (lines 1049-1102).  The
booleans record the null-ness of the arguments and the outcomes of the
external steps (`message_clone`, the context allocation, and
`message_queue_add`).  Returns the result code together with a flag
recording whether the message was enqueued with its completion callback
installed (on any failure the source frees the partial state and nothing is
enqueued). -/
def amqp_messenger_send_async
    (messenger_handle_nonnull message_nonnull callback_nonnull
     message_clone_ok context_malloc_ok message_queue_add_ok : Bool) : Nat × Bool :=
  if messenger_handle_nonnull = false ∨ message_nonnull = false ∨
      callback_nonnull = false then
    (MU_FAILURE, false)
  else if message_clone_ok = false then
    (MU_FAILURE, false)
  else if context_malloc_ok = false then
    (MU_FAILURE, false)
  else if message_queue_add_ok = false then
    (MU_FAILURE, false)
  else
    (RESULT_OK, true)

/-- Modelled from the spec: the send queue (`message_queue.c`, not among the
source files) fires the completion of every successfully added item exactly
once, with a result in {Success, Error, Timeout, Cancelled}; the parameter
is that unique result for the item under consideration. -/
def item_queue_completions (queue_result : MESSAGE_QUEUE_RESULT) :
    List MESSAGE_QUEUE_RESULT :=
  [queue_result]

/-- The user-callback invocations performed by
`on_message_processing_completed_callback` for one queue completion: one
invocation with the translated result when `on_send_complete_callback` is
non-null, none otherwise (lines 1035-1038). -/
def send_complete_invocations (has_callback : Bool)
    (queue_result : MESSAGE_QUEUE_RESULT) (m : AMQP_MESSENGER_INSTANCE) :
    List AMQP_MESSENGER_SEND_RESULT :=
  if has_callback then
    [(on_message_processing_completed_callback queue_result m).1]
  else
    []

/-- All user-callback invocations over the lifetime of one `send_async`
call: none when the message was never enqueued, otherwise one per queue
completion of the item (`send_async` validated the user callback non-null,
so the handler always invokes it). -/
def send_async_user_callback_invocations (enqueued : Bool)
    (queue_result : MESSAGE_QUEUE_RESULT) (m : AMQP_MESSENGER_INSTANCE) :
    List AMQP_MESSENGER_SEND_RESULT :=
  if enqueued then
    (item_queue_completions queue_result).flatMap
      (fun r => send_complete_invocations true r m)
  else
    []

/-- C9: for every `send_async` call that returns success, the user
completion callback is eventually invoked exactly once for that message, and
the delivered result is one of the five defined values. -/
theorem amqp_messenger_send_async_exactly_one_completion
    (handle_nonnull message_nonnull callback_nonnull clone_ok ctx_ok add_ok : Bool)
    (queue_result : MESSAGE_QUEUE_RESULT) (m : AMQP_MESSENGER_INSTANCE) :
    (amqp_messenger_send_async handle_nonnull message_nonnull callback_nonnull
        clone_ok ctx_ok add_ok).1 = RESULT_OK →
    (send_async_user_callback_invocations
        (amqp_messenger_send_async handle_nonnull message_nonnull callback_nonnull
          clone_ok ctx_ok add_ok).2 queue_result m).length = 1 ∧
    ∀ res ∈ send_async_user_callback_invocations
        (amqp_messenger_send_async handle_nonnull message_nonnull callback_nonnull
          clone_ok ctx_ok add_ok).2 queue_result m,
      res = .ok ∨ res = .error_cannot_parse ∨ res = .error_fail_sending ∨
        res = .error_timeout ∨ res = .messenger_destroyed := by
  intro hret
  have henq : (amqp_messenger_send_async handle_nonnull message_nonnull
      callback_nonnull clone_ok ctx_ok add_ok).2 = true := by
    unfold amqp_messenger_send_async at hret ⊢
    repeat' split at hret
    all_goals simp_all [MU_FAILURE, RESULT_OK]
  rw [henq]
  constructor
  · rfl
  · intro res hres
    simp [send_async_user_callback_invocations, item_queue_completions,
      send_complete_invocations] at hres
    subst hres
    unfold on_message_processing_completed_callback
    repeat' split
    all_goals simp

/-- Witness for C9: an all-successful send with an Error queue completion on
a started messenger delivers exactly one result, ErrorFailSending. -/
theorem amqp_messenger_send_async_exactly_one_completion_witness :
    (send_async_user_callback_invocations
        (amqp_messenger_send_async true true true true true true).2 .error
        sample_started_messenger).length = 1 ∧
    ∀ res ∈ send_async_user_callback_invocations
        (amqp_messenger_send_async true true true true true true).2 .error
        sample_started_messenger,
      res = .ok ∨ res = .error_cannot_parse ∨ res = .error_fail_sending ∨
        res = .error_timeout ∨ res = .messenger_destroyed :=
  amqp_messenger_send_async_exactly_one_completion true true true true true true
    .error sample_started_messenger rfl

/-- C3: `stop` fails without side effects on an already-stopped messenger;
otherwise it synchronously destroys the message sender and message receiver
(and their links), invokes the queue move of in-flight items back to
pending, and ends in Error with a non-zero result when the move fails, in
Stopped with result 0 otherwise. -/
theorem amqp_messenger_stop_behavior (m : AMQP_MESSENGER_INSTANCE)
    (queue_move_ok : Bool) :
    (m.state = .stopped →
      (amqp_messenger_stop m queue_move_ok).1 = m ∧
      (amqp_messenger_stop m queue_move_ok).2.1 ≠ RESULT_OK ∧
      (amqp_messenger_stop m queue_move_ok).2.2 = false) ∧
    (m.state ≠ .stopped →
      (amqp_messenger_stop m queue_move_ok).1.message_sender = false ∧
      (amqp_messenger_stop m queue_move_ok).1.sender_link = false ∧
      (amqp_messenger_stop m queue_move_ok).1.message_receiver = false ∧
      (amqp_messenger_stop m queue_move_ok).1.receiver_link = false ∧
      (amqp_messenger_stop m queue_move_ok).2.2 = true ∧
      (queue_move_ok = false →
        (amqp_messenger_stop m queue_move_ok).1.state = .error ∧
        (amqp_messenger_stop m queue_move_ok).2.1 ≠ RESULT_OK) ∧
      (queue_move_ok = true →
        (amqp_messenger_stop m queue_move_ok).1.state = .stopped ∧
        (amqp_messenger_stop m queue_move_ok).2.1 = RESULT_OK)) := by
  constructor
  · intro h
    unfold amqp_messenger_stop
    rw [if_pos h]
    exact ⟨rfl, (by decide : MU_FAILURE ≠ RESULT_OK), rfl⟩
  · intro h
    unfold amqp_messenger_stop
    rw [if_neg h]
    obtain ⟨hs1, hs2, -, -, -⟩ :=
      destroy_message_sender_fields (update_messenger_state m .stopping)
    obtain ⟨hr1, hr2, -, hr4, hr5⟩ := destroy_message_receiver_fields
      (destroy_message_sender (update_messenger_state m .stopping))
    cases queue_move_ok
    · dsimp only
      rw [if_pos rfl]
      exact ⟨hr4.trans hs1, hr5.trans hs2, hr1, hr2, rfl,
        fun _ => ⟨rfl, (by decide : MU_FAILURE ≠ RESULT_OK)⟩,
        fun habs => absurd habs (by decide)⟩
    · dsimp only
      rw [if_neg (by decide : ¬(true = false))]
      exact ⟨hr4.trans hs1, hr5.trans hs2, hr1, hr2, rfl,
        fun habs => absurd habs (by decide),
        fun _ => ⟨rfl, rfl⟩⟩

/-- Witness for C3: stopping a started messenger with a successful queue
move ends Stopped with result 0. -/
theorem amqp_messenger_stop_behavior_witness :
    (amqp_messenger_stop sample_started_messenger true).1.state = .stopped ∧
    (amqp_messenger_stop sample_started_messenger true).2.1 = RESULT_OK :=
  ((amqp_messenger_stop_behavior sample_started_messenger true).2
    (by decide)).2.2.2.2.2.2 rfl

/-- Helper: when the state evaluation of a tick lands the messenger on
Started, the rest of the tick pumps the queue and the tick ends in Error
precisely when the accumulated `send_error_count` reaches
`max_send_error_count`, in Started otherwise. -/
theorem amqp_messenger_do_work_via_started (m : AMQP_MESSENGER_INSTANCE)
    (env : DO_WORK_ENV)
    (hp : process_state_changes m env.now = update_messenger_state m .started) :
    ((amqp_messenger_do_work m env).state = .error ↔
      m.send_error_count + queue_error_increments env.queue_completions ≥
        m.max_send_error_count) ∧
    ((amqp_messenger_do_work m env).state = .started ↔
      m.send_error_count + queue_error_increments env.queue_completions <
        m.max_send_error_count) ∧
    (amqp_messenger_do_work m env).send_error_count =
      m.send_error_count + queue_error_increments env.queue_completions ∧
    (amqp_messenger_do_work m env).max_send_error_count =
      m.max_send_error_count := by
  obtain ⟨hmrs, hmrc, hmrm⟩ := do_work_manage_receiver_preserves
    (update_messenger_state m .started) env.create_receiver_ok
  have hne : (do_work_manage_receiver (update_messenger_state m .started)
      env.create_receiver_ok).state ≠ .stopped := by
    rw [hmrs]
    exact fun habs => nomatch habs
  have hcnt := message_queue_do_work_count env.queue_completions
    (do_work_manage_receiver (update_messenger_state m .started)
      env.create_receiver_ok) hne
  obtain ⟨k, hk⟩ := message_queue_do_work_shape env.queue_completions
    (do_work_manage_receiver (update_messenger_state m .started)
      env.create_receiver_ok)
  have hM3state : (message_queue_do_work (do_work_manage_receiver
      (update_messenger_state m .started) env.create_receiver_ok)
      env.queue_completions).state = .started := by
    rw [hk]
    exact hmrs
  have hM3count : (message_queue_do_work (do_work_manage_receiver
      (update_messenger_state m .started) env.create_receiver_ok)
      env.queue_completions).send_error_count =
      m.send_error_count + queue_error_increments env.queue_completions := by
    rw [hcnt, hmrc]
    exact rfl
  have hM3max : (message_queue_do_work (do_work_manage_receiver
      (update_messenger_state m .started) env.create_receiver_ok)
      env.queue_completions).max_send_error_count = m.max_send_error_count := by
    rw [hk]
    exact hmrm
  unfold amqp_messenger_do_work
  rw [hp]
  dsimp only
  rw [if_neg (show ¬(update_messenger_state m .started).state =
    AMQP_MESSENGER_STATE.starting from fun habs => nomatch habs)]
  rw [if_pos (show (update_messenger_state m .started).state =
    AMQP_MESSENGER_STATE.started from rfl)]
  by_cases hge : (message_queue_do_work (do_work_manage_receiver
      (update_messenger_state m .started) env.create_receiver_ok)
      env.queue_completions).send_error_count ≥
      (message_queue_do_work (do_work_manage_receiver
        (update_messenger_state m .started) env.create_receiver_ok)
        env.queue_completions).max_send_error_count
  · rw [if_pos hge]
    rw [hM3count, hM3max] at hge
    exact ⟨iff_of_true rfl hge,
      iff_of_false (fun habs => nomatch habs) (by omega), hM3count, hM3max⟩
  · rw [if_neg hge]
    rw [hM3count, hM3max] at hge
    refine ⟨iff_of_false ?_ (by omega), iff_of_true hM3state (by omega),
      hM3count, hM3max⟩
    rw [hM3state]
    decide

/-- Helper: when the state evaluation of a tick demotes the messenger to
Error, the rest of the tick leaves it there. -/
theorem amqp_messenger_do_work_via_error (m : AMQP_MESSENGER_INSTANCE)
    (env : DO_WORK_ENV)
    (hp : process_state_changes m env.now = update_messenger_state m .error) :
    (amqp_messenger_do_work m env).state = .error := by
  unfold amqp_messenger_do_work
  rw [hp]
  dsimp only
  rw [if_neg (show ¬(update_messenger_state m .error).state =
    AMQP_MESSENGER_STATE.starting from fun habs => nomatch habs)]
  rw [if_neg (show ¬(update_messenger_state m .error).state =
    AMQP_MESSENGER_STATE.started from fun habs => nomatch habs)]
  rfl

/-- C2: a do_work tick taken while Started leaves the messenger Started only
with `send_error_count` strictly below `max_send_error_count` (default 10 on
a created messenger); concretely, with nine recorded errors a tick recording
the tenth error transitions to Error, while a quiet tick stays Started with
the count at nine. -/
theorem amqp_messenger_do_work_send_error_count_bound :
    (∀ (m : AMQP_MESSENGER_INSTANCE) (env : DO_WORK_ENV),
      m.state = .started →
      (amqp_messenger_do_work m env).state = .started →
      (amqp_messenger_do_work m env).send_error_count < m.max_send_error_count) ∧
    amqp_messenger_create_instance.max_send_error_count = 10 ∧
    (amqp_messenger_do_work sample_started_nine_errors
      env_one_error_completion).state = .error ∧
    (amqp_messenger_do_work sample_started_nine_errors
      env_one_error_completion).send_error_count = 10 ∧
    (amqp_messenger_do_work sample_started_nine_errors
      (quiet_env_at 0)).state = .started ∧
    (amqp_messenger_do_work sample_started_nine_errors
      (quiet_env_at 0)).send_error_count = 9 := by
  refine ⟨?_, rfl, by decide, by decide, by decide, by decide⟩
  intro m env hst hpost
  rcases process_state_changes_of_started m env.now hst with hp | hp
  · have hupd : update_messenger_state m .started = m := by
      rw [update_messenger_state, ← hst]
    have hp' : process_state_changes m env.now =
        update_messenger_state m .started := by
      rw [hp, hupd]
    obtain ⟨-, h2, h3, -⟩ := amqp_messenger_do_work_via_started m env hp'
    rw [h3]
    exact h2.mp hpost
  · have herr := amqp_messenger_do_work_via_error m env hp
    rw [herr] at hpost
    exact absurd hpost (by decide)

/-- Witness for C2: a quiet tick on the nine-error Started messenger keeps
the count below the maximum. -/
theorem amqp_messenger_do_work_send_error_count_bound_witness :
    (amqp_messenger_do_work sample_started_nine_errors
      (quiet_env_at 0)).send_error_count <
      sample_started_nine_errors.max_send_error_count :=
  amqp_messenger_do_work_send_error_count_bound.1 sample_started_nine_errors
    (quiet_env_at 0) rfl (by decide)

/-- Sample messenger: Starting, sender not yet created (shadow state Idle),
as right after `start`. -/
def counterexample_starting_messenger : AMQP_MESSENGER_INSTANCE :=
  { amqp_messenger_create_instance with
      state := .starting
      session_handle := true }

/-- Sample environment: tick at time 0 whose sender-creation attempt fails. -/
def env_sender_creation_fails : DO_WORK_ENV :=
  { quiet_env_at 0 with create_sender_ok := false }

/-- Sample messenger: Starting with the sender present and reporting
Error. -/
def sample_sender_error_messenger : AMQP_MESSENGER_INSTANCE :=
  { sample_opening_messenger with message_sender_current_state := .error }

/-- Counterexample to C4 as stated: on a Starting tick with the sender
reporting Idle and the sender object absent — none of the claimed error
conditions (Error, Closing, Idle-with-object, Opening past the timeout) —
the messenger still transitions to Error, because the sender-creation
attempt made by the tick fails. -/
theorem amqp_messenger_do_work_starting_error_counterexample :
    (amqp_messenger_do_work counterexample_starting_messenger
      env_sender_creation_fails).state = .error ∧
    counterexample_starting_messenger.state = .starting ∧
    ¬ (counterexample_starting_messenger.message_sender_current_state = .error ∨
       counterexample_starting_messenger.message_sender_current_state = .closing ∨
       (counterexample_starting_messenger.message_sender_current_state = .idle ∧
         counterexample_starting_messenger.message_sender = true) ∨
       counterexample_starting_messenger.message_sender_current_state =
         .opening) := by
  decide

/-- C4 (amended): on a do_work tick taken while Starting, the messenger ends
in Error exactly when the sender reports Error or Closing; or reports Idle
while the sender object exists; or reports Opening and the 300-second
timeout since the last observed state change has expired (or the change time
is unavailable); or the sender object is absent after the state evaluation
and the sender creation attempted by the tick fails; or the sender reports
Open — promoting the messenger to Started within the same tick — and the
send error count after pumping the queue reaches `max_send_error_count`.  In
particular, with the sender present and Opening since time 0, at 299 seconds
the state is still Starting and at 301 seconds it is Error. -/
theorem amqp_messenger_do_work_starting_error_characterization :
    (∀ (m : AMQP_MESSENGER_INSTANCE) (env : DO_WORK_ENV),
      m.state = .starting →
      ((amqp_messenger_do_work m env).state = .error ↔
        (m.message_sender_current_state = .error ∨
         m.message_sender_current_state = .closing ∨
         (m.message_sender_current_state = .idle ∧ m.message_sender = true) ∨
         (m.message_sender_current_state = .opening ∧
           ¬ is_timeout_reached m.last_message_sender_state_change_time
               MAX_MESSAGE_SENDER_STATE_CHANGE_TIMEOUT_SECS env.now =
             .ok false) ∨
         (m.message_sender_current_state = .opening ∧
           is_timeout_reached m.last_message_sender_state_change_time
             MAX_MESSAGE_SENDER_STATE_CHANGE_TIMEOUT_SECS env.now = .ok false ∧
           m.message_sender = false ∧ env.create_sender_ok = false) ∨
         (m.message_sender_current_state = .idle ∧ m.message_sender = false ∧
           env.create_sender_ok = false) ∨
         (m.message_sender_current_state = .opened ∧
           m.send_error_count + queue_error_increments env.queue_completions ≥
             m.max_send_error_count)))) ∧
    (amqp_messenger_do_work sample_opening_messenger
      (quiet_env_at 299)).state = .starting ∧
    (amqp_messenger_do_work sample_opening_messenger
      (quiet_env_at 301)).state = .error := by
  refine ⟨?_, by decide, by decide⟩
  intro m env hst
  cases hcs : m.message_sender_current_state
  case error =>
    have hp' : process_state_changes m env.now = update_messenger_state m .error := by
      simp [process_state_changes, update_messenger_state, hst, hcs]
    exact iff_of_true (amqp_messenger_do_work_via_error m env hp') (Or.inl rfl)
  case closing =>
    have hp' : process_state_changes m env.now = update_messenger_state m .error := by
      simp [process_state_changes, update_messenger_state, hst, hcs]
    exact iff_of_true (amqp_messenger_do_work_via_error m env hp')
      (Or.inr (Or.inl rfl))
  case idle =>
    by_cases hms : m.message_sender = true
    · have hp' : process_state_changes m env.now =
          update_messenger_state m .error := by
        simp [process_state_changes, update_messenger_state, hst, hcs, hms]
      exact iff_of_true (amqp_messenger_do_work_via_error m env hp')
        (Or.inr (Or.inr (Or.inl ⟨rfl, hms⟩)))
    · have hms' : m.message_sender = false := by simpa using hms
      have hp' : process_state_changes m env.now = m := by
        simp [process_state_changes, hst, hcs, hms']
      cases hok : env.create_sender_ok
      · have hdw : (amqp_messenger_do_work m env).state = .error := by
          simp [amqp_messenger_do_work, hp', hst, hms', hok,
            create_message_sender, update_messenger_state]
        exact iff_of_true hdw
          (Or.inr (Or.inr (Or.inr (Or.inr (Or.inr (Or.inl ⟨rfl, hms', rfl⟩))))))
      · have hdw : (amqp_messenger_do_work m env).state = .starting := by
          simp [amqp_messenger_do_work, hp', hst, hms', hok, create_message_sender]
        rw [hdw]
        refine iff_of_false (by decide) ?_
        rintro (h | h | h | h | h | h | h) <;> simp [hcs, hms', hok] at h
  case opening =>
    cases hito : is_timeout_reached m.last_message_sender_state_change_time
        MAX_MESSAGE_SENDER_STATE_CHANGE_TIMEOUT_SECS env.now with
    | error e =>
      cases e
      have hp' : process_state_changes m env.now =
          update_messenger_state m .error := by
        simp [process_state_changes, update_messenger_state, hst, hcs, hito]
      exact iff_of_true (amqp_messenger_do_work_via_error m env hp')
        (Or.inr (Or.inr (Or.inr (Or.inl ⟨rfl, fun habs => nomatch habs⟩))))
    | ok b =>
      cases b
      · have hp' : process_state_changes m env.now = m := by
          simp [process_state_changes, hst, hcs, hito]
        by_cases hms : m.message_sender = true
        · have hdw : (amqp_messenger_do_work m env).state = .starting := by
            simp [amqp_messenger_do_work, hp', hst, hms]
          rw [hdw]
          refine iff_of_false (by decide) ?_
          rintro (h | h | h | h | h | h | h) <;> simp [hcs, hms, hito] at h
        · have hms' : m.message_sender = false := by simpa using hms
          cases hok : env.create_sender_ok
          · have hdw : (amqp_messenger_do_work m env).state = .error := by
              simp [amqp_messenger_do_work, hp', hst, hms', hok,
                create_message_sender, update_messenger_state]
            exact iff_of_true hdw
              (Or.inr (Or.inr (Or.inr (Or.inr (Or.inl ⟨rfl, rfl, hms', rfl⟩)))))
          · have hdw : (amqp_messenger_do_work m env).state = .starting := by
              simp [amqp_messenger_do_work, hp', hst, hms', hok,
                create_message_sender]
            rw [hdw]
            refine iff_of_false (by decide) ?_
            rintro (h | h | h | h | h | h | h) <;> simp [hcs, hms', hok, hito] at h
      · have hp' : process_state_changes m env.now =
            update_messenger_state m .error := by
          simp [process_state_changes, update_messenger_state, hst, hcs, hito]
        exact iff_of_true (amqp_messenger_do_work_via_error m env hp')
          (Or.inr (Or.inr (Or.inr (Or.inl ⟨rfl, fun habs => nomatch habs⟩))))
  case opened =>
    have hp' : process_state_changes m env.now =
        update_messenger_state m .started := by
      simp [process_state_changes, update_messenger_state, hst, hcs]
    obtain ⟨h1, -, -, -⟩ := amqp_messenger_do_work_via_started m env hp'
    rw [h1]
    constructor
    · intro hge
      exact Or.inr (Or.inr (Or.inr (Or.inr (Or.inr (Or.inr ⟨rfl, hge⟩)))))
    · rintro (h | h | h | h | h | h | h) <;> simp [hcs] at h <;> omega

/-- Witness for C4: a Starting tick with the sender reporting Error ends in
Error. -/
theorem amqp_messenger_do_work_starting_error_characterization_witness :
    (amqp_messenger_do_work sample_sender_error_messenger
      (quiet_env_at 0)).state = .error :=
  (amqp_messenger_do_work_starting_error_characterization.1
    sample_sender_error_messenger (quiet_env_at 0) rfl).mpr (Or.inl rfl)

/-- All four link-side resources of a messenger are absent. -/
def messenger_links_absent (m : AMQP_MESSENGER_INSTANCE) : Prop :=
  m.sender_link = false ∧ m.message_sender = false ∧
  m.receiver_link = false ∧ m.message_receiver = false

/-- The C8 invariant: a stopped messenger holds no link resources. -/
def stopped_links_invariant (m : AMQP_MESSENGER_INSTANCE) : Prop :=
  m.state = .stopped → messenger_links_absent m

/-- Helper: every public API call preserves the stopped-implies-no-links
invariant. -/
theorem apply_api_call_preserves_stopped_links (m : AMQP_MESSENGER_INSTANCE)
    (c : MESSENGER_API_CALL) (h : stopped_links_invariant m) :
    stopped_links_invariant (apply_api_call m c) := by
  cases c with
  | start_call session_nonnull =>
    unfold apply_api_call amqp_messenger_start
    dsimp only
    by_cases h1 : session_nonnull = false
    · rw [if_pos h1]
      exact h
    · rw [if_neg h1]
      by_cases h2 : m.state ≠ .stopped
      · rw [if_pos h2]
        exact h
      · rw [if_neg h2]
        intro habs
        exact absurd habs (fun hx => nomatch hx)
  | stop_call queue_move_ok =>
    unfold apply_api_call amqp_messenger_stop
    dsimp only
    by_cases h1 : m.state = .stopped
    · rw [if_pos h1]
      exact h
    · rw [if_neg h1]
      obtain ⟨hs1, hs2, -, -, -⟩ :=
        destroy_message_sender_fields (update_messenger_state m .stopping)
      obtain ⟨hr1, hr2, -, hr4, hr5⟩ := destroy_message_receiver_fields
        (destroy_message_sender (update_messenger_state m .stopping))
      cases queue_move_ok
      · rw [if_pos rfl]
        intro habs
        exact absurd habs (fun hx => nomatch hx)
      · rw [if_neg (by decide : ¬(true = false))]
        intro _
        exact ⟨hr5.trans hs2, hr4.trans hs1, hr2, hr1⟩
  | do_work_call env =>
    by_cases h1 : m.state = .stopped
    · have heq : amqp_messenger_do_work m env = m :=
        amqp_messenger_do_work_of_stopped m env h1
      intro habs
      show messenger_links_absent (amqp_messenger_do_work m env)
      rw [heq]
      exact h h1
    · intro habs
      exact absurd habs (amqp_messenger_do_work_state_ne_stopped m env h1)
  | subscribe_call callback_nonnull =>
    unfold apply_api_call amqp_messenger_subscribe_for_messages
    dsimp only
    by_cases h1 : m.receive_messages = true
    · rw [if_pos h1]
      exact h
    · rw [if_neg h1]
      by_cases h2 : callback_nonnull = false
      · rw [if_pos h2]
        exact h
      · rw [if_neg h2]
        intro habs
        exact h habs
  | unsubscribe_call =>
    unfold apply_api_call amqp_messenger_unsubscribe_for_messages
    dsimp only
    by_cases h1 : m.receive_messages = false
    · rw [if_pos h1]
      exact h
    · rw [if_neg h1]
      intro habs
      exact h habs

/-- Helper: the invariant is preserved along any sequence of API calls. -/
theorem api_calls_preserve_stopped_links (calls : List MESSENGER_API_CALL) :
    ∀ m : AMQP_MESSENGER_INSTANCE, stopped_links_invariant m →
      stopped_links_invariant (calls.foldl apply_api_call m) := by
  induction calls with
  | nil => exact fun m h => h
  | cons c rest ih =>
    intro m h
    exact ih _ (apply_api_call_preserves_stopped_links m c h)

/-- C8: in every messenger state reachable from `create` by a sequence of
start, stop, do_work, subscribe and unsubscribe calls, state Stopped implies
that the sender link, message sender, receiver link and message receiver are
all absent. -/
theorem amqp_messenger_stopped_implies_links_absent
    (calls : List MESSENGER_API_CALL) :
    (run_api_calls calls).state = .stopped →
    (run_api_calls calls).sender_link = false ∧
    (run_api_calls calls).message_sender = false ∧
    (run_api_calls calls).receiver_link = false ∧
    (run_api_calls calls).message_receiver = false := by
  have hinv : stopped_links_invariant (run_api_calls calls) :=
    api_calls_preserve_stopped_links calls amqp_messenger_create_instance
      (fun _ => ⟨rfl, rfl, rfl, rfl⟩)
  exact hinv

/-- Witness for C8: after start followed by a successful stop the messenger
is Stopped and link-free. -/
theorem amqp_messenger_stopped_implies_links_absent_witness :
    (run_api_calls [.start_call true, .stop_call true]).sender_link = false ∧
    (run_api_calls [.start_call true, .stop_call true]).message_sender = false ∧
    (run_api_calls [.start_call true, .stop_call true]).receiver_link = false ∧
    (run_api_calls [.start_call true, .stop_call true]).message_receiver = false :=
  amqp_messenger_stopped_implies_links_absent [.start_call true, .stop_call true]
    (by decide)
